import Mathlib

/-!
Verification of the CPU stress tool `cpu_stress.c`
(repository Entrega-Trabalho-Final-SO, directory
Trabalho-final-SO/estressador_final).

The program is a Windows CPU load generator: `main` parses a duration and
an optional thread count, clamps the thread count to the number of logical
processors, registers a console control handler, spawns one worker thread
per chosen processor index, sleeps for the duration, sets a shared stop
flag with `InterlockedExchange`, waits on all thread handles, and exits.
Each worker pins itself to its processor index and runs fixed-size batches
of floating-point busy work, polling the stop flag between batches.

This file shallowly embeds the program: machine integers become `Int`/`Nat`,
the byte-string functions become structural recursion over `List Char`, the
OS environment (processor count, thread-creation success, handler
registration) becomes an explicit `Env` record, and the shared flag becomes
explicit state threaded through an event list.
-/

namespace CpuStress

/-! ## C standard library: `atoi`

`atoi` skips leading whitespace, accepts one optional sign, and converts
the longest leading run of decimal digits; with no digits it yields 0.
-/

/-- Characters treated as whitespace by `atoi` (`isspace` in the C locale). -/
def isSpaceChar (c : Char) : Bool :=
  c = ' ' ∨ c = '\t' ∨ c = '\n' ∨ c = '\x0b' ∨ c = '\x0c' ∨ c = '\r'

/-- Drop the leading whitespace, as `atoi` does before the sign. -/
def skipSpaces : List Char → List Char
  | c :: cs => if isSpaceChar c then skipSpaces cs else c :: cs
  | [] => []

/-- Accumulate the longest leading run of decimal digits; a non-digit stops
the scan, and no digits at all leaves the accumulator (0) unchanged. -/
def parseDigits (acc : Nat) : List Char → Nat
  | c :: cs => if c.isDigit then parseDigits (acc * 10 + (c.toNat - 48)) cs else acc
  | [] => acc

/-- C `atoi` from `<stdlib.h>`: whitespace, optional sign, leading digits.
Non-numeric input converts to 0.  (Overflow of the C `int` is not modelled;
no claim depends on it.) -/
def atoi (s : String) : Int :=
  match skipSpaces s.data with
  | '-' :: cs => -(parseDigits 0 cs : Int)
  | '+' :: cs => (parseDigits 0 cs : Int)
  | cs => (parseDigits 0 cs : Int)

/-! ## Configuration derivation (`main`, lines 65-72)

```c
int num_cpus = (int)si.dwNumberOfProcessors;
if (num_cpus < 1) num_cpus = 1;
int num_threads = (argc >= 3) ? atoi(argv[2]) : num_cpus;
if (num_threads <= 0) num_threads = 1;
if (num_threads > num_cpus) num_threads = num_cpus;
```
-/

/-- Value of `num_cpus` after the guard `if (num_cpus < 1) num_cpus = 1;`. -/
def numCpusEffective (dwNumberOfProcessors : Int) : Int :=
  if dwNumberOfProcessors < 1 then 1 else dwNumberOfProcessors

/-- The two guards applied to `num_threads` (lines 71-72): a non-positive
request becomes 1, then a request above `num_cpus` becomes `num_cpus`. -/
def clampThreads (requested : Int) (numCpus : Int) : Int :=
  let n := if requested ≤ 0 then 1 else requested
  if n > numCpus then numCpus else n

/-- Value of `num_threads` before the guards (line 70): `argv[2]` through
`atoi` when present, else the processor count. -/
def requestedThreads (arg2 : Option String) (numCpus : Int) : Int :=
  match arg2 with
  | some s => atoi s
  | none => numCpus

/-- The effective thread count `main` ends up with. -/
def effectiveThreadCount (arg2 : Option String) (numCpus : Int) : Int :=
  clampThreads (requestedThreads arg2 numCpus) numCpus

/-! ## StopSignal (`g_stop_flag`)

```c
static volatile LONG g_stop_flag = 0;
```
Written at exactly two sites, both `InterlockedExchange(&g_stop_flag, 1)`:
the console control handler (line 14) and the timeout path in `main`
(line 107).  Read at one site: `if (g_stop_flag)` in `worker_thread`
(line 37).
-/

/-- The initial value of `g_stop_flag`. -/
def gStopFlagInit : Nat := 0

/-- The two write sites of `g_stop_flag`, as events. -/
inductive StopEvent where
  | timeoutSet   : StopEvent  -- `InterlockedExchange(&g_stop_flag, 1)` in `main`, line 107
  | interruptSet : StopEvent  -- `InterlockedExchange(&g_stop_flag, 1)` in `ConsoleCtrlHandler`, line 14
  deriving DecidableEq, Repr

/-- Effect of one write site on the flag: both sites store the constant 1. -/
def applyStopEvent (_flag : Nat) (e : StopEvent) : Nat :=
  match e with
  | .timeoutSet => 1
  | .interruptSet => 1

/-- Flag value after an interleaving (any ordering of timeout-path and
handler writes), starting from process start. -/
def flagAfter (es : List StopEvent) : Nat :=
  es.foldl applyStopEvent gStopFlagInit

/-! ## The access discipline on `g_stop_flag`

A static transcription of every source access to the shared flag, with the
operation each site uses.  `InterlockedExchange` is an atomic
read-modify-write with a full barrier; `if (g_stop_flag)` is an ordinary
load of a `volatile LONG` (the `_ReadWriteBarrier()` after the batch is a
compiler-only fence, not an atomic operation).
-/

inductive AccessDir where
  | read : AccessDir
  | write : AccessDir
  deriving DecidableEq, Repr

inductive AccessOp where
  | interlockedExchange : AccessOp  -- atomic RMW, full barrier
  | plainVolatileLoad : AccessOp    -- ordinary load of a volatile LONG
  deriving DecidableEq, Repr

structure FlagAccess where
  site : String
  dir : AccessDir
  op : AccessOp
  deriving DecidableEq, Repr

/-- Whether an access is an atomic operation with at least acquire/release
ordering.  Only the `Interlocked` family qualifies; a plain `volatile`
load does not. -/
def FlagAccess.isAtomicAcqRel (a : FlagAccess) : Bool :=
  match a.op with
  | .interlockedExchange => true
  | .plainVolatileLoad => false

/-- Every access to `g_stop_flag` in the source, in order of appearance. -/
def gStopFlagAccesses : List FlagAccess :=
  [ ⟨"ConsoleCtrlHandler, line 14", .write, .interlockedExchange⟩,
    ⟨"worker_thread, line 37", .read, .plainVolatileLoad⟩,
    ⟨"main, line 107", .write, .interlockedExchange⟩ ]

/-! ## ConsoleCtrlHandler (lines 7-19)

```c
BOOL WINAPI ConsoleCtrlHandler(DWORD ctrl_type)
{
    switch (ctrl_type) \x7b
    case CTRL_C_EVENT:
    case CTRL_BREAK_EVENT:
    case CTRL_CLOSE_EVENT:
    case CTRL_SHUTDOWN_EVENT:
        InterlockedExchange(&g_stop_flag, 1);
        return TRUE;
    default:
        return FALSE;
    \x7d
}
```
-/

def CTRL_C_EVENT : Nat := 0
def CTRL_BREAK_EVENT : Nat := 1
def CTRL_CLOSE_EVENT : Nat := 2
def CTRL_LOGOFF_EVENT : Nat := 5
def CTRL_SHUTDOWN_EVENT : Nat := 6

/-- Everything the handler could touch: the flag it may write, the output
streams, and a count of threads it could create.  The handler body performs
no I/O and creates no thread, so the model makes those components explicit
in its result to state the frame property. -/
structure HandlerResult where
  newFlag : Nat
  retval : Bool
  stderrLines : List String
  stdoutLines : List String
  threadsCreated : Nat
  deriving DecidableEq, Repr

/-- The handler body: the four termination events store 1 into the flag
(via `InterlockedExchange`) and return TRUE; every other event falls to
`default:` and returns FALSE with the flag untouched. -/
def consoleCtrlHandler (ctrlType : Nat) (flag : Nat) : HandlerResult :=
  if ctrlType = CTRL_C_EVENT ∨ ctrlType = CTRL_BREAK_EVENT ∨
     ctrlType = CTRL_CLOSE_EVENT ∨ ctrlType = CTRL_SHUTDOWN_EVENT then
    ⟨applyStopEvent flag .interruptSet, true, [], [], 0⟩
  else
    ⟨flag, false, [], [], 0⟩

/-! ## worker_thread (lines 21-49)

```c
DWORD WINAPI worker_thread(LPVOID lpParam)
{
    int cpu_index = (int)(intptr_t)lpParam;
    ... SetThreadAffinityMask(hThread, 1 << cpu_index) ...
    volatile double x = 1.23456789;
    for (;;) \x7b
        if (g_stop_flag) break;
        for (int i = 0; i < 100000; i++) \x7b
            x = x * 1.0000001 + 0.0000001;
            x = x / 1.00000007 + 0.00000009;
            x = x * x + 1.0;
        \x7d
        _ReadWriteBarrier();
    \x7d
    return 0;
}
```
The IEEE-754 `double` arithmetic is idealised over `ℚ` (the decimal
constants are exact rationals); no claim depends on the numeric values,
only on the loop structure, the batch size and the return value.
-/

/-- Line `int cpu_index = (int)(intptr_t)lpParam;` — the worker reads its
processor index straight from its spawn parameter. -/
def workerCpuIndex (lpParam : Nat) : Nat := lpParam

/-- Initial value of the busy-work accumulator `x`. -/
def workerInitX : ℚ := 1.23456789

/-- One iteration of the inner `for (int i = 0; i < 100000; i++)` body. -/
def busyStep (x : ℚ) : ℚ :=
  let x1 := x * 1.0000001 + 0.0000001
  let x2 := x1 / 1.00000007 + 0.00000009
  x2 * x2 + 1.0

/-- The inner loop runs exactly `batchSize` iterations between two
stop-flag checks. -/
def batchSize : Nat := 100000

/-- One full batch: `batchSize` iterations of `busyStep`. -/
def batch (x : ℚ) : ℚ := busyStep^[batchSize] x

/-- The worker's `for (;;)` loop.  `obs n` is the value of `g_stop_flag`
observed at the n-th loop-head check (the only point where the worker reads
the flag).  `fuel` bounds the number of checks modelled; `none` means the
loop did not exit within `fuel` checks.  On exit the worker has run `n`
batches, holds accumulator `x`, and returns the thread exit code 0; it
performs no I/O and touches no other state inside the loop. -/
def workerLoop (obs : Nat → Bool) : Nat → Nat → ℚ → Option (Nat × ℚ × Nat)
  | 0, _, _ => none
  | fuel + 1, n, x =>
    if obs n then some (n, x, 0)
    else workerLoop obs fuel (n + 1) (batch x)

/-! ## The spawn loop and the join (`main`, lines 89-109)

```c
for (int i = 0; i < num_threads; i++) \x7b
    threads[i] = CreateThread(NULL, 0, worker_thread, (LPVOID)(intptr_t)i, 0, NULL);
    if (!threads[i]) \x7b ... fprintf(stderr, "Erro ao criar thread %d ...") ... \x7d
\x7d
Sleep((DWORD)duration * 1000);
InterlockedExchange(&g_stop_flag, 1);
WaitForMultipleObjects(num_threads, threads, TRUE, INFINITE);
```
-/

/-- Parameter `lpParam` passed to the worker spawned at loop iteration `i`
is `i` itself; the loop runs `i = 0 .. n-1` in order. -/
def spawnParams (n : Nat) : List Nat := List.range n

/-- The handle array after the spawn loop: slot `i` holds a handle
(modelled by the worker's index) when `CreateThread` succeeded at
iteration `i`, and NULL (`none`) when it failed. -/
def spawnLoop (spawnOk : Nat → Bool) (n : Nat) : List (Option Nat) :=
  (spawnParams n).map fun i => if spawnOk i then some i else none

/-- Warning printed by the spawn loop when `CreateThread` fails at index
`i` (the OS error code, environment-dependent, is elided). -/
def spawnFailMsg (i : Nat) : String := "Erro ao criar thread " ++ toString i

inductive WaitOutcome where
  | allJoined : WaitOutcome   -- returned after every handle was signalled
  | waitFailed : WaitOutcome  -- returned WAIT_FAILED without waiting
  deriving DecidableEq, Repr

/-- Win32 `WaitForMultipleObjects(n, handles, TRUE, INFINITE)` as
documented: with `bWaitAll = TRUE` and an infinite timeout it blocks
until every handle in the array is signalled (every thread has exited) —
unless some handle is invalid (NULL), in which case it fails with
`ERROR_INVALID_HANDLE` and returns `WAIT_FAILED` immediately, waiting on
none of the handles. -/
def waitForMultipleObjects (handles : List (Option Nat)) : WaitOutcome :=
  if handles.all Option.isSome then .allJoined else .waitFailed

/-! ## main (lines 52-115) -/

/-- The OS-provided environment of one run: the processor count reported
by `GetSystemInfo`, whether `SetConsoleCtrlHandler` registration succeeds,
whether `calloc` succeeds, and whether `CreateThread` succeeds at each
spawn index. -/
structure Env where
  dwNumberOfProcessors : Int
  handlerRegOk : Bool
  allocOk : Bool
  spawnOk : Nat → Bool

def EXIT_SUCCESS : Nat := 0
def EXIT_FAILURE : Nat := 1

/-- `fprintf(stderr, "Uso: %s <duracao_em_segundos> [num_threads]\n", argv[0])`. -/
def usageMsg (prog : String) : String :=
  "Uso: " ++ prog ++ " <duracao_em_segundos> [num_threads]"

/-- `fprintf(stderr, "Duracao invalida\n")`. -/
def invalidDurationMsg : String := "Duracao invalida"

/-- `fprintf(stderr, "Erro de memoria\n")`. -/
def allocFailMsg : String := "Erro de memoria"

/-- `fprintf(stderr, "Aviso: nao foi possivel registrar ConsoleCtrlHandler.\n")`. -/
def handlerRegFailMsg : String := "Aviso: nao foi possivel registrar ConsoleCtrlHandler."

/-- What one run of `main` produced, in program order: the error/warning
stream, the progress stream, the exit code, the handle array left by the
spawn loop, whether and how the join returned, and the final value of
`g_stop_flag`. -/
structure RunOutcome where
  stderrLines : List String
  stdoutLines : List String
  exitCode : Nat
  threads : List (Option Nat)
  waited : Option WaitOutcome
  finalFlag : Nat
  deriving DecidableEq, Repr

/-- Outcome of the `argc < 2` branch (lines 53-56): usage line to stderr,
`EXIT_FAILURE`, no thread ever created. -/
def usageExit (prog : String) : RunOutcome :=
  ⟨[usageMsg prog], [], EXIT_FAILURE, [], none, gStopFlagInit⟩

/-- Outcome of the `duration <= 0` branch (lines 59-62): "Duracao
invalida" to stderr, `EXIT_FAILURE`, no thread ever created. -/
def invalidDurationExit : RunOutcome :=
  ⟨[invalidDurationMsg], [], EXIT_FAILURE, [], none, gStopFlagInit⟩

/-- The argument-validation prefix of `main` (lines 52-63): `argc < 2`
prints the usage line and returns `EXIT_FAILURE`; a non-positive
`atoi(argv[1])` prints "Duracao invalida" and returns `EXIT_FAILURE`.
Both happen before any thread exists.  `args` is `argv[1..]`. -/
def mainEarlyExit (prog : String) (args : List String) : Option RunOutcome :=
  match args with
  | [] => some (usageExit prog)
  | durStr :: _ => if atoi durStr ≤ 0 then some invalidDurationExit else none

/-- Line `printf("Estressando CPU por %d segundos usando %d threads (de %d CPUs logicos)\n", ...)`. -/
def startMsg (duration numThreads numCpus : Int) : String :=
  "Estressando CPU por " ++ toString duration ++ " segundos usando " ++
    toString numThreads ++ " threads (de " ++ toString numCpus ++ " CPUs logicos)"

/-- The body of `main` past validation (lines 65-115): processor
discovery, clamping, handler registration, allocation, spawn loop, timed
sleep, flag store, join, handle release, completion message.  Workers run
concurrently and their CPU burn is not part of `main`'s state; the join
outcome records how `WaitForMultipleObjects` returned. -/
def mainRun (duration : Int) (arg2 : Option String) (env : Env) : RunOutcome :=
  let numCpus := numCpusEffective env.dwNumberOfProcessors
  let numThreads := effectiveThreadCount arg2 numCpus
  let stdout1 := [startMsg duration numThreads numCpus]
  let stderr1 := if env.handlerRegOk then [] else [handlerRegFailMsg]
  if env.allocOk then
    let n := numThreads.toNat
    let threads := spawnLoop env.spawnOk n
    let stderr2 :=
      ((spawnParams n).filter fun i => ¬ env.spawnOk i).map spawnFailMsg
    -- Sleep(duration * 1000) elapses, then the timeout path stores 1:
    let flag := applyStopEvent gStopFlagInit .timeoutSet
    ⟨stderr1 ++ stderr2, stdout1 ++ ["Finalizado."], EXIT_SUCCESS,
      threads, some (waitForMultipleObjects threads), flag⟩
  else
    ⟨stderr1 ++ [allocFailMsg], stdout1, EXIT_FAILURE, [], none, gStopFlagInit⟩

/-- Function `main`, end to end: the validation prefix, then the run
body.  `args` is `argv[1..]`. -/
def mainModel (prog : String) (args : List String) (env : Env) : RunOutcome :=
  match args with
  | [] => usageExit prog
  | durStr :: rest =>
    if atoi durStr ≤ 0 then invalidDurationExit
    else mainRun (atoi durStr) rest.head? env

/-! ## Helper lemmas -/

/-- Both write sites store the constant 1, whatever the old value. -/
theorem applyStopEvent_eq_one (f : Nat) (e : StopEvent) : applyStopEvent f e = 1 := by
  cases e <;> rfl

/-- Folding any further writes over an already-set flag keeps it at 1. -/
theorem foldl_applyStopEvent_one (us : List StopEvent) :
    us.foldl applyStopEvent 1 = 1 := by
  induction us with
  | nil => rfl
  | cons e tl ih => rw [List.foldl_cons, applyStopEvent_eq_one]; exact ih

/-- Any nonempty interleaving of the two write sites leaves the flag at 1. -/
theorem flagAfter_cons (e : StopEvent) (tl : List StopEvent) :
    flagAfter (e :: tl) = 1 := by
  rw [flagAfter, List.foldl_cons, applyStopEvent_eq_one]
  exact foldl_applyStopEvent_one tl

/-! ## Claim theorems -/

/-- C3: `g_stop_flag` is monotonic.  It starts at 0 at process start; both
write sites (timeout path and interrupt handler) store 1; and for every
interleaving, once some prefix of writes has made the flag 1, every
extension of that interleaving still reads 1 — no code path resets it to
0, so no reader observes `running` after any reader observed `stopping`. -/
theorem stop_flag_monotonic :
    flagAfter [] = 0 ∧
    (∀ f e, applyStopEvent f e = 1) ∧
    (∀ es us, flagAfter es = 1 → flagAfter (es ++ us) = 1) := by
  refine ⟨rfl, applyStopEvent_eq_one, fun es us h => ?_⟩
  cases us with
  | nil => simpa using h
  | cons u tl =>
    have hsplit : flagAfter (es ++ u :: tl) = (u :: tl).foldl applyStopEvent (flagAfter es) := by
      simp [flagAfter, List.foldl_append]
    rw [hsplit, h, List.foldl_cons, applyStopEvent_eq_one]
    exact foldl_applyStopEvent_one tl

theorem stop_flag_monotonic_witness :
    flagAfter ([StopEvent.timeoutSet] ++ [StopEvent.interruptSet]) = 1 :=
  stop_flag_monotonic.2.2 [StopEvent.timeoutSet] [StopEvent.interruptSet] rfl

/-- C9: setting `g_stop_flag` is idempotent.  A second store of 1 (either
site) leaves the flag exactly as one store left it, and every nonempty
interleaving of timeout-path and handler stores yields the same flag value
as the single-set run — so the terminal state the workers and `main`
observe is identical to the single-set case. -/
theorem stop_set_idempotent :
    (∀ f e e', applyStopEvent (applyStopEvent f e) e' = applyStopEvent f e) ∧
    (∀ es, es ≠ [] → flagAfter es = flagAfter [StopEvent.timeoutSet]) := by
  constructor
  · intro f e e'
    cases e <;> cases e' <;> rfl
  · intro es h
    cases es with
    | nil => exact absurd rfl h
    | cons e tl => rw [flagAfter_cons]; rfl

theorem stop_set_idempotent_witness :
    flagAfter [StopEvent.interruptSet, StopEvent.timeoutSet] = flagAfter [StopEvent.timeoutSet] :=
  stop_set_idempotent.2 [StopEvent.interruptSet, StopEvent.timeoutSet] (List.cons_ne_nil _ _)

/-- C7: the console control handler's frame.  For each of the four
termination events (Ctrl+C, Ctrl+Break, console close, system shutdown)
it stores 1 into the flag, returns TRUE, performs no I/O and creates no
thread; for every other event code it returns FALSE and changes nothing
at all. -/
theorem console_ctrl_handler_frame (c flag : Nat) :
    ((c = CTRL_C_EVENT ∨ c = CTRL_BREAK_EVENT ∨
      c = CTRL_CLOSE_EVENT ∨ c = CTRL_SHUTDOWN_EVENT) →
      consoleCtrlHandler c flag = ⟨1, true, [], [], 0⟩) ∧
    (¬ (c = CTRL_C_EVENT ∨ c = CTRL_BREAK_EVENT ∨
        c = CTRL_CLOSE_EVENT ∨ c = CTRL_SHUTDOWN_EVENT) →
      consoleCtrlHandler c flag = ⟨flag, false, [], [], 0⟩) := by
  constructor
  · intro h
    unfold consoleCtrlHandler
    rw [if_pos h]
    rfl
  · intro h
    unfold consoleCtrlHandler
    rw [if_neg h]

theorem console_ctrl_handler_frame_witness :
    consoleCtrlHandler 2 0 = ⟨1, true, [], [], 0⟩ ∧
    consoleCtrlHandler 5 7 = ⟨7, false, [], [], 0⟩ :=
  ⟨(console_ctrl_handler_frame 2 0).1 (by decide),
   (console_ctrl_handler_frame 5 7).2 (by decide)⟩

/-- C2: for every integer request and every reported processor count that
is at least 1 (the code itself forces `num_cpus ≥ 1`), the effective
thread count is in `[1, num_cpus]`; a non-positive request becomes 1, a
request above the processor count is clamped to it, and an omitted second
argument defaults to the processor count. -/
theorem effective_thread_count_in_range (req ncpus : Int) (h : 1 ≤ ncpus) :
    1 ≤ clampThreads req ncpus ∧ clampThreads req ncpus ≤ ncpus ∧
    (req ≤ 0 → clampThreads req ncpus = 1) ∧
    (ncpus < req → clampThreads req ncpus = ncpus) ∧
    effectiveThreadCount none ncpus = ncpus := by
  simp only [effectiveThreadCount, requestedThreads, clampThreads]
  split_ifs <;> omega

theorem effective_thread_count_in_range_witness :
    1 ≤ clampThreads (-5) 8 ∧ clampThreads (-5) 8 ≤ 8 ∧
    ((-5 : Int) ≤ 0 → clampThreads (-5) 8 = 1) ∧
    ((8 : Int) < -5 → clampThreads (-5) 8 = 8) ∧
    effectiveThreadCount none 8 = 8 :=
  effective_thread_count_in_range (-5) 8 (by norm_num)

/-- C8: the spawn loop hands processor index `i` to the worker spawned at
iteration `i`, for `i = 0 .. n-1` in order; the worker adopts exactly that
index, the assignment list has one entry per spawn attempt, and no two
workers receive the same index (stated under the claim's side condition
`n ≤ cpus`, though uniqueness needs no hypothesis). -/
theorem spawn_indices_unique (n cpus : Nat) (h : n ≤ cpus) :
    ((spawnParams n).map workerCpuIndex).Nodup ∧
    (spawnParams n).length = n ∧
    (∀ i, i < n → (spawnParams n)[i]? = some (workerCpuIndex i)) := by
  refine ⟨?_, ?_, ?_⟩
  · have hmap : (spawnParams n).map workerCpuIndex = spawnParams n :=
      List.map_id (spawnParams n)
    rw [hmap]
    simpa [spawnParams] using List.nodup_range n
  · simp [spawnParams]
  · intro i hi
    simp [spawnParams, workerCpuIndex, List.getElem?_range hi]

theorem spawn_indices_unique_witness :
    ((spawnParams 3).map workerCpuIndex).Nodup ∧
    (spawnParams 3).length = 3 ∧
    (spawnParams 3)[1]? = some (workerCpuIndex 1) :=
  ⟨(spawn_indices_unique 3 4 (by decide)).1,
   (spawn_indices_unique 3 4 (by decide)).2.1,
   (spawn_indices_unique 3 4 (by decide)).2.2 1 (by decide)⟩

/-- The worker loop halts once some loop-head check within the fuel bound
observes the flag set: if `obs (n + j)` is true then within `j + 1` checks
starting at check `n` the loop returns `some` with exit code 0 after at
most `j` further batches. -/
theorem workerLoop_halts (obs : Nat → Bool) :
    ∀ (fuel n : Nat) (x : ℚ) (j : Nat), j < fuel → obs (n + j) = true →
      ∃ k x', k ≤ j ∧ workerLoop obs fuel n x = some (n + k, x', 0) := by
  intro fuel
  induction fuel with
  | zero =>
    intro n x j hj _
    exact absurd hj (Nat.not_lt_zero j)
  | succ f ih =>
    intro n x j hj hobs
    by_cases hn : obs n = true
    · exact ⟨0, x, Nat.zero_le j, by simp [workerLoop, hn]⟩
    · have hn' : obs n = false := by
        cases hb : obs n with
        | true => exact absurd hb hn
        | false => rfl
      have hj0 : j ≠ 0 := by
        intro h0
        rw [h0, Nat.add_zero] at hobs
        exact hn hobs
      obtain ⟨j', rfl⟩ : ∃ j', j = j' + 1 := ⟨j - 1, by omega⟩
      have hobs' : obs (n + 1 + j') = true := by
        have harith : n + 1 + j' = n + (j' + 1) := by omega
        rw [harith]
        exact hobs
      obtain ⟨k, x', hk, heq⟩ := ih (n + 1) (batch x) j' (by omega) hobs'
      have harith2 : n + 1 + k = n + (k + 1) := by omega
      rw [harith2] at heq
      refine ⟨k + 1, x', by omega, ?_⟩
      have hstep : workerLoop obs (f + 1) n x = workerLoop obs f (n + 1) (batch x) := by
        simp [workerLoop, hn']
      rw [hstep, heq]

/-- C6: worker termination under a set stop flag.  `obs n` is the flag
value the worker reads at its n-th loop-head check; each executed batch is
`batchSize = 100000` iterations of `busyStep`.  If the flag is monotone
and is set by check `k`, the loop exits at some check `j ≤ k` — having run
`j` batches, i.e. no batch after the check that observed the set flag, and
at most the one in-flight batch after the set itself — and returns the
thread exit code 0 with no other effect recorded. -/
theorem worker_loop_terminates (obs : Nat → Bool) (k : Nat) (x0 : ℚ)
    (hmono : ∀ m n, m ≤ n → obs m = true → obs n = true)
    (hk : obs k = true) :
    batchSize = 100000 ∧
    ∃ j x', j ≤ k ∧ workerLoop obs (k + 1) 0 x0 = some (j, x', 0) := by
  refine ⟨rfl, ?_⟩
  obtain ⟨j, x', hj, heq⟩ :=
    workerLoop_halts obs (k + 1) 0 x0 k (Nat.lt_succ_self k) (by simpa using hk)
  exact ⟨j, x', hj, by simpa using heq⟩

theorem worker_loop_terminates_witness :
    batchSize = 100000 ∧
    ∃ j x', j ≤ 0 ∧ workerLoop (fun _ => true) 1 0 workerInitX = some (j, x', 0) :=
  worker_loop_terminates (fun _ => true) 0 workerInitX (fun _ _ _ h => h) rfl

/-- An arbitrary benign environment, for evaluating closed runs. -/
def anyEnv : Env := ⟨4, true, true, fun _ => true⟩

/-- C5 counterexample: on `argv = [prog, "0"]` (duration present but
non-positive) the process exits with failure before any thread, but the
line it prints is "Duracao invalida" — the usage message never appears on
stderr, contrary to the claim that the usage message is printed for every
missing-or-non-positive duration. -/
theorem usage_error_counterexample :
    (mainModel "cpu_stress" ["0"] anyEnv).stderrLines = [invalidDurationMsg] ∧
    (mainModel "cpu_stress" ["0"] anyEnv).exitCode = EXIT_FAILURE ∧
    invalidDurationMsg ≠ usageMsg "cpu_stress" ∧
    usageMsg "cpu_stress" ∉ (mainModel "cpu_stress" ["0"] anyEnv).stderrLines := by
  refine ⟨rfl, rfl, by decide, by decide⟩

/-- C5 amended: a missing duration argument prints the usage line, and a
present but non-positive duration prints "Duracao invalida"; in both
cases the message goes to stderr, the exit status is `EXIT_FAILURE`
(non-zero), nothing is printed to stdout, and the run ends before any
thread is created (empty handle array, no join). -/
theorem usage_error_amended (prog : String) (args : List String)
    (h : args = [] ∨ ∃ d rest, args = d :: rest ∧ atoi d ≤ 0) :
    ∃ r, mainEarlyExit prog args = some r ∧
      (∀ env, mainModel prog args env = r) ∧
      r.exitCode = EXIT_FAILURE ∧ r.exitCode ≠ 0 ∧
      r.threads = [] ∧ r.waited = none ∧ r.stdoutLines = [] ∧
      r.stderrLines = (if args = [] then [usageMsg prog] else [invalidDurationMsg]) := by
  rcases h with rfl | ⟨d, rest, rfl, hd⟩
  · refine ⟨usageExit prog, rfl, fun env => rfl, rfl, by simp [usageExit, EXIT_FAILURE], rfl, rfl, rfl, by simp [usageExit]⟩
  · refine ⟨invalidDurationExit, ?_, ?_, rfl, by decide, rfl, rfl, rfl, ?_⟩
    · simp [mainEarlyExit, hd]
    · intro env
      simp [mainModel, hd]
    · simp [invalidDurationExit]

theorem usage_error_amended_witness :
    ∃ r, mainEarlyExit "cpu_stress" [] = some r ∧
      (∀ env, mainModel "cpu_stress" [] env = r) ∧
      r.exitCode = EXIT_FAILURE ∧ r.exitCode ≠ 0 ∧
      r.threads = [] ∧ r.waited = none ∧ r.stdoutLines = [] ∧
      r.stderrLines = (if ([] : List String) = [] then [usageMsg "cpu_stress"] else [invalidDurationMsg]) :=
  usage_error_amended "cpu_stress" [] (Or.inl rfl)

/-- C10: a non-numeric second argument (one `atoi` maps to 0) is silently
promoted to one worker: the run proceeds with no stderr output, exit code
`EXIT_SUCCESS`, and exactly one spawned thread; whereas a non-numeric
first argument is rejected as an invalid duration (failure exit, no
threads), whatever follows it. -/
theorem nonnumeric_thread_arg_silent (prog d s : String) (ncpus : Int)
    (hs : atoi s = 0) (hd : 0 < atoi d) (hn : 1 ≤ ncpus) :
    effectiveThreadCount (some s) ncpus = 1 ∧
    (mainModel prog [d, s] ⟨ncpus, true, true, fun _ => true⟩).stderrLines = [] ∧
    (mainModel prog [d, s] ⟨ncpus, true, true, fun _ => true⟩).exitCode = EXIT_SUCCESS ∧
    (mainModel prog [d, s] ⟨ncpus, true, true, fun _ => true⟩).threads = [some 0] ∧
    (∀ rest env, mainModel prog (s :: rest) env = invalidDurationExit) := by
  have hd' : ¬ atoi d ≤ 0 := by omega
  have heff : effectiveThreadCount (some s) ncpus = 1 := by
    simp only [effectiveThreadCount, requestedThreads, hs, clampThreads]
    split_ifs <;> omega
  have hcpus : numCpusEffective ncpus = ncpus := by
    rw [numCpusEffective, if_neg (by omega)]
  refine ⟨heff, ?_, ?_, ?_, ?_⟩
  · simp [mainModel, hd', mainRun, hcpus, heff, spawnLoop, spawnParams]
  · simp [mainModel, hd', mainRun, hcpus, heff]
  · simp [mainModel, hd', mainRun, hcpus, heff, spawnLoop, spawnParams]
    decide
  · intro rest env
    simp [mainModel, hs]

theorem nonnumeric_thread_arg_silent_witness :
    effectiveThreadCount (some "abc") 4 = 1 ∧
    (mainModel "cpu_stress" ["5", "abc"] ⟨4, true, true, fun _ => true⟩).stderrLines = [] ∧
    (mainModel "cpu_stress" ["5", "abc"] ⟨4, true, true, fun _ => true⟩).exitCode = EXIT_SUCCESS ∧
    (mainModel "cpu_stress" ["5", "abc"] ⟨4, true, true, fun _ => true⟩).threads = [some 0] ∧
    (∀ rest env, mainModel "cpu_stress" ("abc" :: rest) env = invalidDurationExit) :=
  nonnumeric_thread_arg_silent "cpu_stress" "5" "abc" 4 (by decide) (by decide) (by decide)

/-- A run on 2 processors in which `CreateThread` succeeds for index 0 and
fails for index 1: the handle array keeps a NULL slot. -/
def partialSpawnEnv : Env := ⟨2, true, true, fun i => i == 0⟩

/-- C1 (failing run): with duration 5, two requested threads and a spawn
failure at index 1, the handle array is `[some 0, none]`; the NULL slot
makes `WaitForMultipleObjects` fail with `ERROR_INVALID_HANDLE` and return
immediately, so `main` reaches `EXIT_SUCCESS` without having joined the
successfully spawned worker 0 — the spec's join-every-spawned-worker
contract is broken exactly when a spawn attempt fails. -/
theorem partial_spawn_skips_join :
    (mainModel "cpu_stress" ["5", "2"] partialSpawnEnv).threads = [some 0, none] ∧
    (mainModel "cpu_stress" ["5", "2"] partialSpawnEnv).waited = some WaitOutcome.waitFailed ∧
    (mainModel "cpu_stress" ["5", "2"] partialSpawnEnv).exitCode = EXIT_SUCCESS ∧
    (mainModel "cpu_stress" ["5", "2"] partialSpawnEnv).stderrLines = [spawnFailMsg 1] ∧
    waitForMultipleObjects [some 0, some 1] = WaitOutcome.allJoined := by
  refine ⟨by decide, by decide, by decide, by decide, by decide⟩

/-- C4 counterexample: it is not the case that every access to
`g_stop_flag` in the source is an atomic acquire/release (or stronger)
operation — the read in `worker_thread` (line 37) is a plain load of a
`volatile LONG`. -/
theorem atomic_access_counterexample :
    ¬ (∀ a ∈ gStopFlagAccesses, a.isAtomicAcqRel = true) := by decide

/-- C4 amended: both writes of `g_stop_flag` (handler and timeout path)
are `InterlockedExchange` — atomic with a full barrier — but the single
read, at the worker's loop head, is a plain `volatile LONG` load (followed
only by the compiler-level `_ReadWriteBarrier`), not an atomic operation
with acquire ordering. -/
theorem flag_access_discipline :
    (∀ a ∈ gStopFlagAccesses, a.dir = AccessDir.write →
      a.op = AccessOp.interlockedExchange ∧ a.isAtomicAcqRel = true) ∧
    (∀ a ∈ gStopFlagAccesses, a.dir = AccessDir.read →
      a.op = AccessOp.plainVolatileLoad ∧ a.isAtomicAcqRel = false) := by
  decide

theorem flag_access_discipline_witness :
    FlagAccess.isAtomicAcqRel
      ⟨"ConsoleCtrlHandler, line 14", AccessDir.write, AccessOp.interlockedExchange⟩ = true ∧
    FlagAccess.isAtomicAcqRel
      ⟨"worker_thread, line 37", AccessDir.read, AccessOp.plainVolatileLoad⟩ = false :=
  ⟨(flag_access_discipline.1
      ⟨"ConsoleCtrlHandler, line 14", AccessDir.write, AccessOp.interlockedExchange⟩
      (by decide) rfl).2,
   (flag_access_discipline.2
      ⟨"worker_thread, line 37", AccessDir.read, AccessOp.plainVolatileLoad⟩
      (by decide) rfl).2⟩

end CpuStress
